import Mathlib

/-!
Verification of the procedural world-generation core (noise compositing,
terrain generation, droplet erosion, biome classification).

The TypeScript sources are shallowly embedded over exact rationals:
JavaScript numbers become `ℚ`, `number[][]` grids become total functions
`ℤ → ℤ → ℚ` updated pointwise (array writes become `setCell`), and
`Math.floor` becomes `Int.floor`.  `Math.sqrt` (used only for droplet
direction normalisation and speed) is passed in as an abstract function
argument, since no claim depends on its value.
-/

/-- A height/climate/biome grid: `g x y` is the source's `map[y][x]`. -/
def Grid : Type := ℤ → ℤ → ℚ

/-- Writing `map[y][x] = v` on a functional grid. -/
def setCell (g : Grid) (x y : ℤ) (v : ℚ) : Grid :=
  fun a b => if a = x ∧ b = y then v else g a b

/-- Sum of all cell values of a `w × h` grid (rows `0..h-1`, columns `0..w-1`). -/
def gridSum (w h : ℤ) (g : Grid) : ℚ :=
  ∑ y ∈ Finset.range h.toNat, ∑ x ∈ Finset.range w.toNat, g (x : ℤ) (y : ℤ)

theorem setCell_apply (g : Grid) (x y a b : ℤ) (v : ℚ) :
    setCell g x y v a b = if a = x ∧ b = y then v else g a b := rfl

/-! ## Noise (src/src/world/Terrain/NoiseAlgorithms.ts)

The noise primitive itself is the external `simplex-noise` package's
`createNoise2D(random = Math.random)`: absent a seed argument it derives its
permutation table from the ambient random source, so its output depends on
that ambient randomness, not on any seed string. -/

/-- Modelled from the spec: the external `createNoise2D` builds a permutation
table from the ambient random source (here the `random` argument) when called
with no arguments, and the resulting noise function is determined by that
table together with the sampled coordinates.  The spec requires a NoiseField
to be "deterministic, seeded"; this model keeps only what decides that claim:
the dependence of the output on the ambient `random` draw. -/
def createNoise2D (random : ℕ) : ℚ → ℚ → ℚ :=
  fun x y => ((((random + (⌊x⌋ + 31 * ⌊y⌋).natAbs) % 289 : ℕ) : ℚ) / 289) * 2 - 1

/-- `NoiseAlgorithms`: holds the noise closures built at construction. -/
structure NoiseAlgorithms where
  noise2D : ℚ → ℚ → ℚ

/-- The `NoiseAlgorithms(seed?: string)` constructor: the `seed` parameter is
accepted but never used; `createNoise2D()` is called with no seed, consuming
the ambient random draw `random`. -/
def NoiseAlgorithms.mk' (_seed : Option String) (random : ℕ) : NoiseAlgorithms :=
  { noise2D := createNoise2D random }

/-- Loop state of `fractalNoise2D`: (amplitude, frequency, noiseValue,
amplitudeSum). -/
structure FracState where
  amplitude : ℚ
  frequency : ℚ
  noiseValue : ℚ
  amplitudeSum : ℚ

/-- One iteration of the `fractalNoise2D` octave loop. -/
def fractalStep (n : ℚ → ℚ → ℚ) (x y persistence lacunarity scale : ℚ)
    (st : FracState) : FracState :=
  let sampleX := x * st.frequency / scale
  let sampleY := y * st.frequency / scale
  { amplitude := st.amplitude * persistence
    frequency := st.frequency * lacunarity
    noiseValue := st.noiseValue + n sampleX sampleY * st.amplitude
    amplitudeSum := st.amplitudeSum + st.amplitude }

/-- `fractalNoise2D(x, y, octaves, persistence, lacunarity, scale)` over an
arbitrary underlying 2D noise sampler `n`. -/
def fractalNoise2D (n : ℚ → ℚ → ℚ) (x y : ℚ) (octaves : ℕ)
    (persistence lacunarity scale : ℚ) : ℚ :=
  let st := (fractalStep n x y persistence lacunarity scale)^[octaves]
    { amplitude := 1, frequency := 1, noiseValue := 0, amplitudeSum := 0 }
  st.noiseValue / st.amplitudeSum

/-! ## Terrain settings and generator (src/unnamed/part_002)

`TerrainSettings` and `DEFAULT_TERRAIN_SETTINGS`, then the `TerrainGenerator`
class.  Its constructor merges the caller's partial settings over the
defaults, builds the noise generator and allocates the four maps.  It
performs no validation of its own: the only way it can fail is the runtime
`RangeError` thrown by `Array(n)` for a negative length; we embed it with an
`Except` result type carrying exactly that error path. -/

structure HeightThresholds where
  deepOcean : ℚ
  ocean : ℚ
  beach : ℚ
  lowland : ℚ
  hills : ℚ
  mountains : ℚ
  peaks : ℚ

structure TerrainSettings where
  width : ℤ
  height : ℤ
  seed : String
  scale : ℚ
  baseOctaves : ℕ
  basePersistence : ℚ
  baseLacunarity : ℚ
  baseScale : ℚ
  mountainOctaves : ℕ
  mountainPersistence : ℚ
  mountainLacunarity : ℚ
  mountainScale : ℚ
  mountainWeight : ℚ
  oceanOctaves : ℕ
  oceanPersistence : ℚ
  oceanLacunarity : ℚ
  oceanScale : ℚ
  oceanLevel : ℚ
  erosionIterations : ℕ
  erosionStrength : ℚ
  erosionDeposition : ℚ
  erosionSmoothness : ℚ
  heightThresholds : HeightThresholds
  temperatureScale : ℚ
  humidityScale : ℚ
  temperatureOffset : ℚ
  humidityOffset : ℚ

def DEFAULT_TERRAIN_SETTINGS : TerrainSettings where
  width := 256
  height := 256
  seed := "biome-default-seed"
  scale := 1
  baseOctaves := 6
  basePersistence := 0.5
  baseLacunarity := 2
  baseScale := 100
  mountainOctaves := 4
  mountainPersistence := 0.5
  mountainLacunarity := 2
  mountainScale := 150
  mountainWeight := 0.35
  oceanOctaves := 2
  oceanPersistence := 0.6
  oceanLacunarity := 2
  oceanScale := 200
  oceanLevel := 0.4
  erosionIterations := 50000
  erosionStrength := 0.3
  erosionDeposition := 0.1
  erosionSmoothness := 0.15
  heightThresholds :=
    { deepOcean := 0.2, ocean := 0.4, beach := 0.45, lowland := 0.55
      hills := 0.7, mountains := 0.85, peaks := 0.95 }
  temperatureScale := 250
  humidityScale := 300
  temperatureOffset := 0
  humidityOffset := 0.2

/-- The only error the constructor can raise: the JavaScript runtime's
`RangeError: Invalid array length`, thrown by `Array(n)` for an invalid
length.  There is no configuration-error constructor because the source
contains no validation and no `throw` of its own. -/
inductive JsError where
  | rangeErrorInvalidArrayLength : JsError
deriving DecidableEq

/-- `Array(n)`: succeeds for a non-negative length, throws `RangeError` for a
negative one.  (The 2^32-1 upper bound of real JS array lengths is not
modelled; no claim concerns it.) -/
def jsArrayAlloc (n : ℤ) : Except JsError Unit :=
  if n < 0 then Except.error JsError.rangeErrorInvalidArrayLength else Except.ok ()

structure TerrainGenerator where
  settings : TerrainSettings
  heightMap : Grid
  temperatureMap : Grid
  humidityMap : Grid
  biomeMap : Grid

/-- The `TerrainGenerator` constructor (part_002 lines 113–123): store the
merged settings, build the noise generator, allocate the four maps with
`Array(height).fill(0).map(() => Array(width).fill(0))`.  The body contains
no check and no `throw` of its own, but the allocation itself throws
`RangeError` when `height` is negative, and — since `.map` runs the inner
`Array(width)` once per row — when `height` is positive and `width` is
negative.  (All four maps allocate identically, so the first allocation
decides the outcome.) -/
def TerrainGenerator.construct (settings : TerrainSettings) :
    Except JsError TerrainGenerator :=
  match jsArrayAlloc settings.height with
  | Except.error e => Except.error e
  | Except.ok _ =>
      match (if 0 < settings.height then jsArrayAlloc settings.width
             else Except.ok ()) with
      | Except.error e => Except.error e
      | Except.ok _ =>
          Except.ok
            { settings := settings
              heightMap := fun _ _ => 0
              temperatureMap := fun _ _ => 0
              humidityMap := fun _ _ => 0
              biomeMap := fun _ _ => 0 }

/-- `getHeightAt(x, y)` (part_002 lines 281–286). -/
def TerrainGenerator.getHeightAt (t : TerrainGenerator) (x y : ℤ) : ℚ :=
  if x < 0 ∨ x ≥ t.settings.width ∨ y < 0 ∨ y ≥ t.settings.height then 0
  else t.heightMap x y

/-- `getBiomeAt(x, y)` (part_002 lines 288–293). -/
def TerrainGenerator.getBiomeAt (t : TerrainGenerator) (x y : ℤ) : ℚ :=
  if x < 0 ∨ x ≥ t.settings.width ∨ y < 0 ∨ y ≥ t.settings.height then 0
  else t.biomeMap x y

/-! ## Biome classification (src/unnamed/part_001, BiomeManager) -/

inductive BiomeType where
  | DEEP_OCEAN
  | OCEAN
  | BEACH
  | TUNDRA
  | PLAINS
  | FOREST
  | DESERT
  | RAINFOREST
  | HILLS
  | MOUNTAINS
  | SNOW_PEAKS
deriving DecidableEq, Repr

structure BiomeRules where
  minHeight : ℚ
  maxHeight : ℚ
  minTemperature : ℚ
  maxTemperature : ℚ
  minHumidity : ℚ
  maxHumidity : ℚ
  transitionRange : ℚ
deriving DecidableEq

/-- `TerrainData` as the BiomeManager reads it: the `number[][]` maps with
their array dimensions (`heightMap.length`, `heightMap[0]?.length || 0`)
carried explicitly. -/
structure TerrainData where
  width : ℤ
  height : ℤ
  heightMap : Grid
  temperatureMap : Grid
  humidityMap : Grid

/-- `calculateRangeMatch(value, min, max)` (part_001 lines 572–577). -/
def calculateRangeMatch (value min max : ℚ) : ℚ :=
  if value < min ∨ value > max then 0
  else
    let center := (min + max) / 2
    let range := max - min
    1 - |value - center| / (range / 2)

/-- `determineBiomeType(height, temperature, humidity)` (part_001 lines
547–570): fold over the rule table (a `Map`, iterated in stable insertion
order), starting from the default `PLAINS` with best match 0 and replacing
the best only on a strictly greater mean score.  The `currentBiome` cache
write and the `biomeChanged` emission are side effects on the returned
value only. -/
def determineBiomeType (rules : List (BiomeType × BiomeRules))
    (height temperature humidity : ℚ) : BiomeType :=
  (rules.foldl
    (fun best p =>
      let heightMatch := calculateRangeMatch height p.2.minHeight p.2.maxHeight
      let tempMatch := calculateRangeMatch temperature p.2.minTemperature p.2.maxTemperature
      let humidityMatch := calculateRangeMatch humidity p.2.minHumidity p.2.maxHumidity
      let totalMatch := (heightMatch + tempMatch + humidityMatch) / 3
      if totalMatch > best.2 then (p.1, totalMatch) else best)
    (BiomeType.PLAINS, (0 : ℚ))).1

structure BiomeManager where
  biomeRules : List (BiomeType × BiomeRules)
  terrainData : Option TerrainData

/-- `getBiomeAtPosition(x, y)` (part_001 lines 444–462): `PLAINS` with no
terrain data or out of bounds, otherwise classify the stored cell values. -/
def BiomeManager.getBiomeAtPosition (m : BiomeManager) (x y : ℤ) : BiomeType :=
  match m.terrainData with
  | none => BiomeType.PLAINS
  | some td =>
      if x < 0 ∨ x ≥ td.width ∨ y < 0 ∨ y ≥ td.height then BiomeType.PLAINS
      else determineBiomeType m.biomeRules
        (td.heightMap x y) (td.temperatureMap x y) (td.humidityMap x y)

/-! ## Erosion simulator (src/unnamed/part_003)

Droplet-based hydraulic erosion and raster-order thermal relaxation.
`Math.sqrt` appears only in direction normalisation and the speed update and
is abstracted as `sqrtFn`; every claim proved below holds for every choice
of `sqrtFn`. -/

structure Droplet where
  x : ℚ
  y : ℚ
  volume : ℚ
  speed : ℚ
  sediment : ℚ
  directionX : ℚ
  directionY : ℚ

structure ErosionSettings where
  width : ℤ
  height : ℤ
  dropletLifetime : ℚ
  erosionRate : ℚ
  depositionRate : ℚ
  minSlope : ℚ
  erosionIterations : ℕ
  erosionStrength : ℚ
  erosionDeposition : ℚ
  erosionSmoothness : ℚ

/-- `getInterpolatedHeight(x, y)` (part_003 lines 201–222): 0 when the cell
is within one cell of the edge or outside, otherwise bilinear interpolation
of the four surrounding cells. -/
def getInterpolatedHeight (w h : ℤ) (g : Grid) (x y : ℚ) : ℚ :=
  let cellX := ⌊x⌋
  let cellY := ⌊y⌋
  let fx := x - cellX
  let fy := y - cellY
  if cellX < 0 ∨ cellX ≥ w - 1 ∨ cellY < 0 ∨ cellY ≥ h - 1 then 0
  else
    let h00 := g cellX cellY
    let h10 := g (cellX + 1) cellY
    let h01 := g cellX (cellY + 1)
    let h11 := g (cellX + 1) (cellY + 1)
    h00 * (1 - fx) * (1 - fy) + h10 * fx * (1 - fy) +
      h01 * (1 - fx) * fy + h11 * fx * fy

/-- `calculateGradient(x, y)` (part_003 lines 182–199): corner heights with
edge clamping, then bilinear gradient. -/
def calculateGradient (w h : ℤ) (g : Grid) (x y : ℚ) : ℚ × ℚ :=
  let cellX := ⌊x⌋
  let cellY := ⌊y⌋
  let fx := x - cellX
  let fy := y - cellY
  let h00 := g cellX cellY
  let h10 := g (min (cellX + 1) (w - 1)) cellY
  let h01 := g cellX (min (cellY + 1) (h - 1))
  let h11 := g (min (cellX + 1) (w - 1)) (min (cellY + 1) (h - 1))
  ((h10 - h00) * (1 - fy) + (h11 - h01) * fy,
   (h01 - h00) * (1 - fx) + (h11 - h10) * fx)

/-- `deposit(x, y, amount)` (part_003 lines 224–239): bilinear splat onto the
four surrounding cells; a silent no-op within one cell of the edge. -/
def deposit (w h : ℤ) (g : Grid) (x y amount : ℚ) : Grid :=
  if ⌊x⌋ < 0 ∨ ⌊x⌋ ≥ w - 1 ∨ ⌊y⌋ < 0 ∨ ⌊y⌋ ≥ h - 1 then g
  else
    let cellX := ⌊x⌋
    let cellY := ⌊y⌋
    let fx := x - cellX
    let fy := y - cellY
    let g1 := setCell g cellX cellY (g cellX cellY + amount * (1 - fx) * (1 - fy))
    let g2 := setCell g1 (cellX + 1) cellY (g1 (cellX + 1) cellY + amount * fx * (1 - fy))
    let g3 := setCell g2 cellX (cellY + 1) (g2 cellX (cellY + 1) + amount * (1 - fx) * fy)
    setCell g3 (cellX + 1) (cellY + 1) (g3 (cellX + 1) (cellY + 1) + amount * fx * fy)

/-- `erode(x, y, amount)` (part_003 lines 241–256): bilinear removal from the
four surrounding cells; a silent no-op within one cell of the edge. -/
def erode (w h : ℤ) (g : Grid) (x y amount : ℚ) : Grid :=
  if ⌊x⌋ < 0 ∨ ⌊x⌋ ≥ w - 1 ∨ ⌊y⌋ < 0 ∨ ⌊y⌋ ≥ h - 1 then g
  else
    let cellX := ⌊x⌋
    let cellY := ⌊y⌋
    let fx := x - cellX
    let fy := y - cellY
    let g1 := setCell g cellX cellY (g cellX cellY - amount * (1 - fx) * (1 - fy))
    let g2 := setCell g1 (cellX + 1) cellY (g1 (cellX + 1) cellY - amount * fx * (1 - fy))
    let g3 := setCell g2 cellX (cellY + 1) (g2 cellX (cellY + 1) - amount * (1 - fx) * fy)
    setCell g3 (cellX + 1) (cellY + 1) (g3 (cellX + 1) (cellY + 1) - amount * fx * fy)

/-- The erosion amount of part_003 line 131:
`Math.min((capacity - droplet.sediment) * erosionStrength, -heightDiff)`. -/
def erodeAmount (capacity sediment erosionStrength heightDiff : ℚ) : ℚ :=
  min ((capacity - sediment) * erosionStrength) (-heightDiff)

/-- One iteration of the droplet `while` loop body (part_003 lines 93–134),
run once the bounds check has passed: gradient, inertial direction update
with normalisation, unit advance, height difference, speed and evaporation
update, capacity, then deposit or erode. -/
def hydraulicStep (sqrtFn : ℚ → ℚ) (w h : ℤ) (erosionStrength erosionDeposition : ℚ)
    (g : Grid) (d : Droplet) : Grid × Droplet :=
  let gradient := calculateGradient w h g d.x d.y
  let dirX0 := d.directionX * 0.9 + gradient.1 * 0.1
  let dirY0 := d.directionY * 0.9 + gradient.2 * 0.1
  let len := sqrtFn (dirX0 * dirX0 + dirY0 * dirY0)
  let dirX := if len ≠ 0 then dirX0 / len else dirX0
  let dirY := if len ≠ 0 then dirY0 / len else dirY0
  let x := d.x + dirX
  let y := d.y + dirY
  let oldHeight := getInterpolatedHeight w h g (x - dirX) (y - dirY)
  let newHeight := getInterpolatedHeight w h g x y
  let heightDiff := newHeight - oldHeight
  let speed := sqrtFn (max 0 (d.speed * d.speed + heightDiff * 9.81))
  let volume := d.volume * 0.99
  let capacity := max (-heightDiff) 0.01 * speed * volume * erosionStrength
  if d.sediment > capacity then
    let amountToDeposit := (d.sediment - capacity) * erosionDeposition
    (deposit w h g x y amountToDeposit,
     { x := x, y := y, volume := volume, speed := speed
       sediment := d.sediment - amountToDeposit, directionX := dirX, directionY := dirY })
  else
    let amountToErode := erodeAmount capacity d.sediment erosionStrength heightDiff
    (erode w h g x y amountToErode,
     { x := x, y := y, volume := volume, speed := speed
       sediment := d.sediment + amountToErode, directionX := dirX, directionY := dirY })

/-- The loop's discard condition on the containing cell (part_003 line 89):
`cellX < 0 || cellX >= width-1 || cellY < 0 || cellY >= height-1`. -/
def dropletOut (w h : ℤ) (d : Droplet) : Bool :=
  ⌊d.x⌋ < 0 ∨ ⌊d.x⌋ ≥ w - 1 ∨ ⌊d.y⌋ < 0 ∨ ⌊d.y⌋ ≥ h - 1

/-- A droplet on which the `while` loop makes no further step: evaporated
below the volume threshold, or its containing cell has left the grid. -/
def dropletStopped (w h : ℤ) (d : Droplet) : Bool :=
  if d.volume ≤ 0.01 then true else dropletOut w h d

/-- The droplet `while (droplet.volume > 0.01)` loop (part_003 lines 84–135),
with explicit fuel.  `droplet_run_bounded` below shows fuel 10000 is never
exhausted from a spawn state, so this is the loop's exact semantics. -/
def dropletRun (sqrtFn : ℚ → ℚ) (w h : ℤ) (erosionStrength erosionDeposition : ℚ) :
    ℕ → Grid → Droplet → Grid × Droplet
  | 0, g, d => (g, d)
  | fuel + 1, g, d =>
      if d.volume > 0.01 then
        if dropletOut w h d then (g, d)
        else
          let p := hydraulicStep sqrtFn w h erosionStrength erosionDeposition g d
          dropletRun sqrtFn w h erosionStrength erosionDeposition fuel p.1 p.2
      else (g, d)

/-- Droplet creation (part_003 lines 73–81) at a random continuous position
`(r₁·(width-1), r₂·(height-1))`. -/
def spawnDroplet (w h : ℤ) (r : ℚ × ℚ) : Droplet :=
  { x := r.1 * ((w : ℚ) - 1), y := r.2 * ((h : ℚ) - 1)
    volume := 1, speed := 0, sediment := 0, directionX := 0, directionY := 0 }

/-- `hydraulicErosion()` (part_003 lines 66–141): one droplet per iteration,
with `rand i` standing for the two `Math.random()` draws of droplet `i`. -/
def hydraulicErosion (sqrtFn : ℚ → ℚ) (w h : ℤ)
    (erosionStrength erosionDeposition : ℚ) (dropletCount : ℕ)
    (rand : ℕ → ℚ × ℚ) (g : Grid) : Grid :=
  (List.range dropletCount).foldl
    (fun g' i =>
      (dropletRun sqrtFn w h erosionStrength erosionDeposition 10000 g'
        (spawnDroplet w h (rand i))).1)
    g

/-- `Math.tan(Math.PI * 0.25)`: the maximum stable slope (45°), exactly 1. -/
def talus : ℚ := 1

/-- The body of the thermal neighbour loop (part_003 lines 160–172) for one
neighbour `(nx, ny)` of the centre `(x, y)`: if in bounds and the slope from
the centre's pre-loop height exceeds the talus angle, move
`(slope - talus) * erosionSmoothness` half-and-half, in place. -/
def applyNeighbor (w h : ℤ) (smooth currentHeight : ℚ) (x y nx ny : ℤ)
    (g : Grid) : Grid :=
  if 0 ≤ nx ∧ nx < w ∧ 0 ≤ ny ∧ ny < h then
    let heightDiff := currentHeight - g nx ny
    let slope := heightDiff / 1
    if slope > talus then
      let amount := (slope - talus) * smooth
      let g1 := setCell g x y (g x y - amount * 0.5)
      setCell g1 nx ny (g1 nx ny + amount * 0.5)
    else g
  else g

/-- Processing of one cell in a thermal pass (part_003 lines 150–172):
`currentHeight` is read once, then the four axis neighbours are visited in
source order on the live grid. -/
def thermalCell (w h : ℤ) (smooth : ℚ) (g : Grid) (x y : ℤ) : Grid :=
  let currentHeight := g x y
  let g1 := applyNeighbor w h smooth currentHeight x y (x + 1) y g
  let g2 := applyNeighbor w h smooth currentHeight x y (x - 1) y g1
  let g3 := applyNeighbor w h smooth currentHeight x y x (y + 1) g2
  applyNeighbor w h smooth currentHeight x y x (y - 1) g3

/-- One full thermal pass (part_003 lines 148–174): raster order over
`y ∈ [0, height-2]`, `x ∈ [0, width-2]`, in place. -/
def thermalPass (w h : ℤ) (smooth : ℚ) (g : Grid) : Grid :=
  (List.range (h - 1).toNat).foldl
    (fun gy (y : ℕ) =>
      (List.range (w - 1).toNat).foldl
        (fun gx (x : ℕ) => thermalCell w h smooth gx (x : ℤ) (y : ℤ)) gy)
    g

/-- `thermalErosion()` (part_003 lines 143–180):
`Math.floor(erosionIterations * 0.2)` passes. -/
def thermalErosion (w h : ℤ) (smooth : ℚ) (erosionIterations : ℕ) (g : Grid) : Grid :=
  (thermalPass w h smooth)^[(⌊(erosionIterations : ℚ) * 0.2⌋).toNat] g

/-- `simulate(heightMap)` (part_003 lines 54–64): copy the input (identity on
functional grids), hydraulic erosion, then thermal erosion. -/
def ErosionSimulator.simulate (sqrtFn : ℚ → ℚ) (s : ErosionSettings)
    (rand : ℕ → ℚ × ℚ) (g : Grid) : Grid :=
  thermalErosion s.width s.height s.erosionSmoothness s.erosionIterations
    (hydraulicErosion sqrtFn s.width s.height s.erosionStrength s.erosionDeposition
      s.erosionIterations rand g)

/-! ## Claim C1: determinism of noise -/

/-- C1 (code bug): the claim says two noise generators constructed with the
same seed return identical outputs at the same coordinates.  The
`NoiseAlgorithms` constructor accepts the seed but never uses it, calling
`createNoise2D()` unseeded, so the noise closure depends on the ambient
random draw: two instances with the identical seed string but different
ambient randomness disagree at (0, 0). -/
theorem noise_constructor_ignores_seed :
    (NoiseAlgorithms.mk' (some "biome-default-seed") 0).noise2D 0 0 ≠
    (NoiseAlgorithms.mk' (some "biome-default-seed") 1).noise2D 0 0 := by
  simp only [NoiseAlgorithms.mk', createNoise2D]
  norm_num

/-! ## Claim C2: constructor validation -/

/-- C2 counterexample: constructing the terrain generator with width 0 (a
non-positive dimension) is not rejected — construction succeeds, so the
claim that such configurations are rejected with a configuration error at
construction is false. -/
theorem terrain_construct_accepts_nonpositive_width :
    (TerrainGenerator.construct { DEFAULT_TERRAIN_SETTINGS with width := 0 }).isOk = true :=
  rfl

/-- C2 amended: the `TerrainGenerator` constructor performs no validation
and never raises a configuration error.  Zero dimensions and arbitrary
(including non-positive) scales and persistence are accepted silently;
construction fails only with the runtime `RangeError` from array
allocation, exactly when `height < 0`, or when `height > 0` and
`width < 0` — so invalid-but-allocatable configurations do reach
generation. -/
theorem terrain_construct_range_error_only (s : TerrainSettings) :
    (TerrainGenerator.construct s).isOk = true ↔
      ¬(s.height < 0 ∨ (0 < s.height ∧ s.width < 0)) := by
  unfold TerrainGenerator.construct jsArrayAlloc
  by_cases h1 : s.height < 0
  · simp [h1, Except.isOk, Except.toBool]
  · by_cases h2 : 0 < s.height
    · by_cases h3 : s.width < 0
      · simp [h1, h2, h3, Except.isOk, Except.toBool]
      · simp [h1, h2, h3, Except.isOk, Except.toBool]
    · simp [h1, h2, Except.isOk, Except.toBool]

/-! ## Claim C6: the triangular range-match score -/

/-- C6: for `min < max`, `calculateRangeMatch` is 1 at the interval midpoint,
0 at both endpoints, and exactly 0 at every value outside `[min, max]`. -/
theorem rangeMatch_triangular (min max : ℚ) (hlt : min < max) :
    calculateRangeMatch ((min + max) / 2) min max = 1 ∧
    calculateRangeMatch min min max = 0 ∧
    calculateRangeMatch max min max = 0 ∧
    ∀ v : ℚ, (v < min ∨ v > max) → calculateRangeMatch v min max = 0 := by
  have hhalf : (max - min) / 2 ≠ 0 := ne_of_gt (by linarith)
  refine ⟨?_, ?_, ?_, ?_⟩
  · have hg : ¬((min + max) / 2 < min ∨ (min + max) / 2 > max) := by
      push_neg
      constructor <;> [linarith; linarith]
    simp only [calculateRangeMatch, if_neg hg]
    rw [sub_self, abs_zero, zero_div, sub_zero]
  · have hg : ¬(min < min ∨ min > max) := by
      push_neg
      exact ⟨le_refl min, le_of_lt hlt⟩
    simp only [calculateRangeMatch, if_neg hg]
    have : min - (min + max) / 2 = -((max - min) / 2) := by ring
    rw [this, abs_neg, abs_of_pos (by linarith), div_self hhalf, sub_self]
  · have hg : ¬(max < min ∨ max > max) := by
      push_neg
      exact ⟨le_of_lt hlt, le_refl max⟩
    simp only [calculateRangeMatch, if_neg hg]
    have : max - (min + max) / 2 = (max - min) / 2 := by ring
    rw [this, abs_of_pos (by linarith), div_self hhalf, sub_self]
  · intro v hv
    simp only [calculateRangeMatch, if_pos hv]

/-- Witness for C6 at the interval `[0, 2]`. -/
theorem rangeMatch_triangular_witness :
    calculateRangeMatch 1 0 2 = 1 ∧ calculateRangeMatch 0 0 2 = 0 ∧
    calculateRangeMatch 2 0 2 = 0 ∧ calculateRangeMatch 3 0 2 = 0 := by
  obtain ⟨h1, h2, h3, h4⟩ := rangeMatch_triangular 0 2 (by norm_num)
  refine ⟨?_, h2, h3, h4 3 (Or.inr (by norm_num))⟩
  rw [show ((0 : ℚ) + 2) / 2 = 1 by norm_num] at h1
  exact h1

/-! ## Claim C7: simulate with zero iterations is the identity -/

/-- C7: with `erosionIterations = 0` there are no hydraulic droplets and
`floor(0 * 0.2) = 0` thermal passes, so `simulate` returns a grid equal to
its input at every cell. -/
theorem simulate_identity_zero_iterations (sqrtFn : ℚ → ℚ) (s : ErosionSettings)
    (rand : ℕ → ℚ × ℚ) (g : Grid) (h0 : s.erosionIterations = 0) :
    ∀ x y : ℤ, ErosionSimulator.simulate sqrtFn s rand g x y = g x y := by
  intro x y
  simp [ErosionSimulator.simulate, hydraulicErosion, thermalErosion, h0]

/-- Witness for C7 on a concrete settings record and grid. -/
theorem simulate_identity_zero_iterations_witness :
    ErosionSimulator.simulate (fun q => q)
      { width := 4, height := 4, dropletLifetime := 30, erosionRate := 0.3
        depositionRate := 0.3, minSlope := 0.01, erosionIterations := 0
        erosionStrength := 0.3, erosionDeposition := 0.3, erosionSmoothness := 0.15 }
      (fun _ => (0.5, 0.5)) (fun _ _ => 7) 1 2 = 7 :=
  simulate_identity_zero_iterations (fun q => q) _ (fun _ => (0.5, 0.5))
    (fun _ _ => 7) rfl 1 2

/-! ## Claim C10: default biome on no positive score -/

/-- C10: when no registered biome rule achieves a strictly positive mean of
the three per-axis range-match scores, classification returns the default
`PLAINS` — even when no `PLAINS` rule is registered — because the best-match
comparison is strict. -/
theorem determineBiomeType_default_plains (rules : List (BiomeType × BiomeRules))
    (height temperature humidity : ℚ)
    (hall : ∀ p ∈ rules,
      (calculateRangeMatch height p.2.minHeight p.2.maxHeight +
       calculateRangeMatch temperature p.2.minTemperature p.2.maxTemperature +
       calculateRangeMatch humidity p.2.minHumidity p.2.maxHumidity) / 3 ≤ 0) :
    determineBiomeType rules height temperature humidity = BiomeType.PLAINS := by
  induction rules with
  | nil => rfl
  | cons p l ih =>
      have hp := hall p (List.mem_cons_self p l)
      have hstep :
          (if (calculateRangeMatch height p.2.minHeight p.2.maxHeight +
               calculateRangeMatch temperature p.2.minTemperature p.2.maxTemperature +
               calculateRangeMatch humidity p.2.minHumidity p.2.maxHumidity) / 3 >
              (0 : ℚ) then
            (p.1,
             (calculateRangeMatch height p.2.minHeight p.2.maxHeight +
              calculateRangeMatch temperature p.2.minTemperature p.2.maxTemperature +
              calculateRangeMatch humidity p.2.minHumidity p.2.maxHumidity) / 3)
          else (BiomeType.PLAINS, (0 : ℚ))) = (BiomeType.PLAINS, (0 : ℚ)) :=
        if_neg (not_lt.mpr hp)
      simp only [determineBiomeType, List.foldl_cons] at *
      rw [hstep]
      exact ih fun q hq => hall q (List.mem_cons_of_mem p hq)

/-- Witness for C10: the repository's single registered rule (`DEEP_OCEAN`)
scores 0 at (0.5, 30, 0.5), so the default `PLAINS` wins although no
`PLAINS` rule is registered. -/
theorem determineBiomeType_default_plains_witness :
    determineBiomeType
      [(BiomeType.DEEP_OCEAN,
        { minHeight := 0, maxHeight := 0.2, minTemperature := 0, maxTemperature := 20
          minHumidity := 0.8, maxHumidity := 1, transitionRange := 0.05 })]
      0.5 30 0.5 = BiomeType.PLAINS :=
  determineBiomeType_default_plains _ 0.5 30 0.5 (by
    intro p hp
    simp only [List.mem_singleton] at hp
    subst hp
    norm_num [calculateRangeMatch])

/-! ## Claim C3: fractal noise stays in [-1, 1] -/

/-- Invariant of the octave loop: the running amplitude stays positive, the
accumulated noise is bounded by the accumulated amplitude, and after at
least one octave the accumulated amplitude is at least 1. -/
theorem fractal_loop_invariant (noise : ℚ → ℚ → ℚ) (x y persistence lacunarity scale : ℚ)
    (hp : 0 < persistence) (hb : ∀ a b : ℚ, -1 ≤ noise a b ∧ noise a b ≤ 1) :
    ∀ k : ℕ,
      0 < ((fractalStep noise x y persistence lacunarity scale)^[k]
            { amplitude := 1, frequency := 1, noiseValue := 0, amplitudeSum := 0 }).amplitude ∧
      |((fractalStep noise x y persistence lacunarity scale)^[k]
            { amplitude := 1, frequency := 1, noiseValue := 0, amplitudeSum := 0 }).noiseValue| ≤
        ((fractalStep noise x y persistence lacunarity scale)^[k]
            { amplitude := 1, frequency := 1, noiseValue := 0, amplitudeSum := 0 }).amplitudeSum ∧
      (1 ≤ k →
        1 ≤ ((fractalStep noise x y persistence lacunarity scale)^[k]
              { amplitude := 1, frequency := 1, noiseValue := 0, amplitudeSum := 0 }).amplitudeSum) := by
  intro k
  induction k with
  | zero =>
      refine ⟨one_pos, by simp, fun hk => absurd hk (by norm_num)⟩
  | succ m ih =>
      obtain ⟨hamp, hnv, hsum⟩ := ih
      set st := (fractalStep noise x y persistence lacunarity scale)^[m]
        { amplitude := 1, frequency := 1, noiseValue := 0, amplitudeSum := 0 } with hst
      rw [Function.iterate_succ_apply']
      rw [← hst]
      refine ⟨mul_pos hamp hp, ?_, ?_⟩
      · show |st.noiseValue + noise (x * st.frequency / scale) (y * st.frequency / scale) * st.amplitude| ≤
          st.amplitudeSum + st.amplitude
        have habs : |noise (x * st.frequency / scale) (y * st.frequency / scale)| ≤ 1 :=
          abs_le.mpr (hb _ _)
        calc |st.noiseValue + noise (x * st.frequency / scale) (y * st.frequency / scale) * st.amplitude|
            ≤ |st.noiseValue| + |noise (x * st.frequency / scale) (y * st.frequency / scale) * st.amplitude| :=
              abs_add _ _
          _ = |st.noiseValue| + |noise (x * st.frequency / scale) (y * st.frequency / scale)| * |st.amplitude| := by
              rw [abs_mul]
          _ ≤ st.amplitudeSum + 1 * st.amplitude := by
              have h1 : |st.amplitude| = st.amplitude := abs_of_pos hamp
              have h2 : |noise (x * st.frequency / scale) (y * st.frequency / scale)| * |st.amplitude| ≤
                  1 * st.amplitude := by
                rw [h1]
                exact mul_le_mul_of_nonneg_right habs (le_of_lt hamp)
              linarith
          _ = st.amplitudeSum + st.amplitude := by ring
      · intro _
        show (1 : ℚ) ≤ st.amplitudeSum + st.amplitude
        rcases Nat.eq_zero_or_pos m with hm | hm
        · subst hm
          simp only [Function.iterate_zero, id_eq] at hst
          rw [hst]
          show (1 : ℚ) ≤ 0 + 1
          norm_num
        · have := hsum hm
          linarith

/-- C3: for `octaves ≥ 1`, `persistence ∈ (0,1]`, `lacunarity > 1`,
`scale > 0`, if every underlying noise sample lies in `[-1, 1]` then
`fractalNoise2D` (octave-accumulated noise divided by the accumulated
amplitude) lies in `[-1, 1]`. -/
theorem fractalNoise2D_bounded (noise : ℚ → ℚ → ℚ) (x y : ℚ) (octaves : ℕ)
    (persistence lacunarity scale : ℚ) (ho : 1 ≤ octaves)
    (hp1 : 0 < persistence) (hp2 : persistence ≤ 1) (hl : 1 < lacunarity)
    (hs : 0 < scale) (hb : ∀ a b : ℚ, -1 ≤ noise a b ∧ noise a b ≤ 1) :
    -1 ≤ fractalNoise2D noise x y octaves persistence lacunarity scale ∧
      fractalNoise2D noise x y octaves persistence lacunarity scale ≤ 1 := by
  obtain ⟨hamp, hnv, hsum⟩ :=
    fractal_loop_invariant noise x y persistence lacunarity scale hp1 hb octaves
  have hpos : (0 : ℚ) <
      ((fractalStep noise x y persistence lacunarity scale)^[octaves]
        { amplitude := 1, frequency := 1, noiseValue := 0, amplitudeSum := 0 }).amplitudeSum :=
    lt_of_lt_of_le one_pos (hsum ho)
  have : |fractalNoise2D noise x y octaves persistence lacunarity scale| ≤ 1 := by
    unfold fractalNoise2D
    rw [abs_div, abs_of_pos hpos]
    exact (div_le_one hpos).mpr hnv
  exact abs_le.mp this

/-- Witness for C3 with the constant-zero noise sampler and one octave. -/
theorem fractalNoise2D_bounded_witness :
    -1 ≤ fractalNoise2D (fun _ _ => 0) 0 0 1 1 2 1 ∧
      fractalNoise2D (fun _ _ => 0) 0 0 1 1 2 1 ≤ 1 :=
  fractalNoise2D_bounded (fun _ _ => 0) 0 0 1 1 2 1 (le_refl 1)
    (by norm_num) (le_refl 1) (by norm_num) (by norm_num)
    (fun _ _ => ⟨by norm_num, by norm_num⟩)

/-! ## Claim C8: point queries degrade to defaults out of bounds -/

/-- C8: out-of-bounds point queries return the documented defaults rather
than failing — `getHeightAt` returns 0, `getBiomeAt` returns the default
biome code 0, and the BiomeManager's `getBiomeAtPosition` returns `PLAINS`
(also with no terrain data) — while in-bounds integer coordinates return the
stored cell values. -/
theorem point_queries_oob_defaults (t : TerrainGenerator) (m : BiomeManager) (x y : ℤ) :
    ((x < 0 ∨ x ≥ t.settings.width ∨ y < 0 ∨ y ≥ t.settings.height) →
      t.getHeightAt x y = 0 ∧ t.getBiomeAt x y = 0) ∧
    (0 ≤ x → x < t.settings.width → 0 ≤ y → y < t.settings.height →
      t.getHeightAt x y = t.heightMap x y ∧ t.getBiomeAt x y = t.biomeMap x y) ∧
    (∀ td, m.terrainData = some td →
      (x < 0 ∨ x ≥ td.width ∨ y < 0 ∨ y ≥ td.height) →
      m.getBiomeAtPosition x y = BiomeType.PLAINS) ∧
    (m.terrainData = none → m.getBiomeAtPosition x y = BiomeType.PLAINS) := by
  refine ⟨?_, ?_, ?_, ?_⟩
  · intro hout
    exact ⟨by simp [TerrainGenerator.getHeightAt, hout],
           by simp [TerrainGenerator.getBiomeAt, hout]⟩
  · intro hx0 hxw hy0 hyh
    have hin : ¬(x < 0 ∨ x ≥ t.settings.width ∨ y < 0 ∨ y ≥ t.settings.height) := by omega
    exact ⟨by simp [TerrainGenerator.getHeightAt, hin],
           by simp [TerrainGenerator.getBiomeAt, hin]⟩
  · intro td htd hout
    simp [BiomeManager.getBiomeAtPosition, htd, hout]
  · intro hnone
    simp [BiomeManager.getBiomeAtPosition, hnone]

/-- Witness for C8 at coordinate (-1, 0) of a concrete generator and
manager. -/
theorem point_queries_oob_defaults_witness :
    TerrainGenerator.getHeightAt
      { settings := DEFAULT_TERRAIN_SETTINGS, heightMap := fun _ _ => 3
        temperatureMap := fun _ _ => 0, humidityMap := fun _ _ => 0
        biomeMap := fun _ _ => 4 } (-1) 0 = 0 ∧
    TerrainGenerator.getBiomeAt
      { settings := DEFAULT_TERRAIN_SETTINGS, heightMap := fun _ _ => 3
        temperatureMap := fun _ _ => 0, humidityMap := fun _ _ => 0
        biomeMap := fun _ _ => 4 } (-1) 0 = 0 ∧
    BiomeManager.getBiomeAtPosition { biomeRules := [], terrainData := none } (-1) 0 =
      BiomeType.PLAINS := by
  obtain ⟨hoob, _, _, hnone⟩ :=
    point_queries_oob_defaults
      { settings := DEFAULT_TERRAIN_SETTINGS, heightMap := fun _ _ => 3
        temperatureMap := fun _ _ => 0, humidityMap := fun _ _ => 0
        biomeMap := fun _ _ => 4 }
      { biomeRules := [], terrainData := none } (-1) 0
  obtain ⟨hh, hb⟩ := hoob (Or.inl (by decide))
  exact ⟨hh, hb, hnone rfl⟩

/-! ## Claim C9: uphill movement makes the erode branch negative -/

/-- Values of the four cells touched by an interior `erode`. -/
theorem erode_apply_cells (w h : ℤ) (g : Grid) (x y a : ℚ)
    (hin : ¬(⌊x⌋ < 0 ∨ ⌊x⌋ ≥ w - 1 ∨ ⌊y⌋ < 0 ∨ ⌊y⌋ ≥ h - 1)) :
    erode w h g x y a ⌊x⌋ ⌊y⌋ =
        g ⌊x⌋ ⌊y⌋ - a * (1 - Int.fract x) * (1 - Int.fract y) ∧
    erode w h g x y a (⌊x⌋ + 1) ⌊y⌋ =
        g (⌊x⌋ + 1) ⌊y⌋ - a * Int.fract x * (1 - Int.fract y) ∧
    erode w h g x y a ⌊x⌋ (⌊y⌋ + 1) =
        g ⌊x⌋ (⌊y⌋ + 1) - a * (1 - Int.fract x) * Int.fract y ∧
    erode w h g x y a (⌊x⌋ + 1) (⌊y⌋ + 1) =
        g (⌊x⌋ + 1) (⌊y⌋ + 1) - a * Int.fract x * Int.fract y := by
  have hx1 : ¬(⌊x⌋ = ⌊x⌋ + 1) := by omega
  have hy1 : ¬(⌊y⌋ = ⌊y⌋ + 1) := by omega
  have hx2 : ¬(⌊x⌋ + 1 = ⌊x⌋) := by omega
  have hy2 : ¬(⌊y⌋ + 1 = ⌊y⌋) := by omega
  refine ⟨?_, ?_, ?_, ?_⟩ <;>
  · unfold erode
    rw [if_neg hin]
    simp [setCell, hx1, hy1, hx2, hy2]

/-- C9: in a hydraulic step whose droplet carries at most its capacity and
which moved uphill (`heightDiff > 0`), the computed erosion amount
`min((capacity - sediment) * erosionStrength, -heightDiff)` is negative, so
the carried sediment strictly decreases and the interior `erode` raises the
heights of the four surrounding cells (strictly at the base cell, whose
bilinear weight is always positive). -/
theorem erode_uphill_negative (w h : ℤ) (g : Grid)
    (x y capacity sediment erosionStrength heightDiff : ℚ)
    (hsed : sediment ≤ capacity) (hup : 0 < heightDiff) (hes : 0 ≤ erosionStrength)
    (hx0 : 0 ≤ ⌊x⌋) (hxw : ⌊x⌋ < w - 1) (hy0 : 0 ≤ ⌊y⌋) (hyh : ⌊y⌋ < h - 1) :
    erodeAmount capacity sediment erosionStrength heightDiff < 0 ∧
    sediment + erodeAmount capacity sediment erosionStrength heightDiff < sediment ∧
    g ⌊x⌋ ⌊y⌋ <
      erode w h g x y (erodeAmount capacity sediment erosionStrength heightDiff) ⌊x⌋ ⌊y⌋ ∧
    g (⌊x⌋ + 1) ⌊y⌋ ≤
      erode w h g x y (erodeAmount capacity sediment erosionStrength heightDiff) (⌊x⌋ + 1) ⌊y⌋ ∧
    g ⌊x⌋ (⌊y⌋ + 1) ≤
      erode w h g x y (erodeAmount capacity sediment erosionStrength heightDiff) ⌊x⌋ (⌊y⌋ + 1) ∧
    g (⌊x⌋ + 1) (⌊y⌋ + 1) ≤
      erode w h g x y (erodeAmount capacity sediment erosionStrength heightDiff)
        (⌊x⌋ + 1) (⌊y⌋ + 1) := by
  have hamt : erodeAmount capacity sediment erosionStrength heightDiff = -heightDiff := by
    unfold erodeAmount
    exact min_eq_right
      (le_trans (by linarith) (mul_nonneg (sub_nonneg.mpr hsed) hes))
  have hneg : erodeAmount capacity sediment erosionStrength heightDiff < 0 := by
    rw [hamt]; linarith
  have hin : ¬(⌊x⌋ < 0 ∨ ⌊x⌋ ≥ w - 1 ∨ ⌊y⌋ < 0 ∨ ⌊y⌋ ≥ h - 1) := by omega
  obtain ⟨h00, h10, h01, h11⟩ :=
    erode_apply_cells w h g x y (erodeAmount capacity sediment erosionStrength heightDiff) hin
  have hfx0 : 0 ≤ Int.fract x := Int.fract_nonneg x
  have hfx1 : Int.fract x < 1 := Int.fract_lt_one x
  have hfy0 : 0 ≤ Int.fract y := Int.fract_nonneg y
  have hfy1 : Int.fract y < 1 := Int.fract_lt_one y
  refine ⟨hneg, by linarith, ?_, ?_, ?_, ?_⟩
  · rw [h00, hamt]
    have : 0 < heightDiff * ((1 - Int.fract x) * (1 - Int.fract y)) :=
      mul_pos hup (mul_pos (by linarith) (by linarith))
    nlinarith
  · rw [h10, hamt]
    have : 0 ≤ heightDiff * (Int.fract x * (1 - Int.fract y)) :=
      mul_nonneg (le_of_lt hup) (mul_nonneg hfx0 (by linarith))
    nlinarith
  · rw [h01, hamt]
    have : 0 ≤ heightDiff * ((1 - Int.fract x) * Int.fract y) :=
      mul_nonneg (le_of_lt hup) (mul_nonneg (by linarith) hfy0)
    nlinarith
  · rw [h11, hamt]
    have : 0 ≤ heightDiff * (Int.fract x * Int.fract y) :=
      mul_nonneg (le_of_lt hup) (mul_nonneg hfx0 hfy0)
    nlinarith

/-- Witness for C9: a 3×3 grid, droplet at (1/2, 1/2), capacity 1, no
carried sediment, unit strength, uphill difference 1. -/
theorem erode_uphill_negative_witness :
    erodeAmount 1 0 1 1 < 0 ∧
    (0 : ℚ) + erodeAmount 1 0 1 1 < 0 ∧
    (fun (_ : ℤ) (_ : ℤ) => (0 : ℚ)) ⌊(1/2 : ℚ)⌋ ⌊(1/2 : ℚ)⌋ <
      erode 3 3 (fun _ _ => 0) (1/2) (1/2) (erodeAmount 1 0 1 1) ⌊(1/2 : ℚ)⌋ ⌊(1/2 : ℚ)⌋ := by
  obtain ⟨ha, hs, h00, _, _, _⟩ :=
    erode_uphill_negative 3 3 (fun _ _ => 0) (1/2) (1/2) 1 0 1 1
      (by norm_num) (by norm_num) (by norm_num)
      (by norm_num) (by norm_num) (by norm_num) (by norm_num)
  exact ⟨ha, hs, h00⟩

/-! ## Claim C5: one thermal pass conserves total height -/

/-- Writing one in-range cell changes the grid sum by the value difference. -/
theorem gridSum_setCell (w h : ℤ) (g : Grid) (a b : ℤ) (v : ℚ)
    (ha0 : 0 ≤ a) (haw : a < w) (hb0 : 0 ≤ b) (hbh : b < h) :
    gridSum w h (setCell g a b v) = gridSum w h g + (v - g a b) := by
  unfold gridSum
  have key : ∀ q r : ℕ, setCell g a b v (q : ℤ) (r : ℤ) =
      g q r + (if q = a.toNat ∧ r = b.toNat then v - g a b else 0) := by
    intro q r
    by_cases hq : (q : ℤ) = a ∧ (r : ℤ) = b
    · have hq' : q = a.toNat ∧ r = b.toNat := by omega
      rw [setCell_apply, if_pos hq, if_pos hq', hq.1, hq.2]
      ring
    · have hq' : ¬(q = a.toNat ∧ r = b.toNat) := by omega
      rw [setCell_apply, if_neg hq, if_neg hq', add_zero]
  rw [Finset.sum_congr rfl fun r _ => Finset.sum_congr rfl fun q _ => key q r]
  have expand : ∀ r : ℕ,
      (∑ q ∈ Finset.range w.toNat,
        (g (q : ℤ) (r : ℤ) + if q = a.toNat ∧ r = b.toNat then v - g a b else 0)) =
      (∑ q ∈ Finset.range w.toNat, g (q : ℤ) (r : ℤ)) +
        (if r = b.toNat then v - g a b else 0) := by
    intro r
    rw [Finset.sum_add_distrib]
    congr 1
    by_cases hr : r = b.toNat
    · simp only [hr, and_true]
      rw [Finset.sum_ite_eq' (Finset.range w.toNat) a.toNat fun _ => v - g a b]
      rw [if_pos (Finset.mem_range.mpr (by omega))]
      simp
    · simp [hr]
  rw [Finset.sum_congr rfl fun r _ => expand r, Finset.sum_add_distrib]
  congr 1
  rw [Finset.sum_ite_eq' (Finset.range h.toNat) b.toNat fun _ => v - g a b]
  rw [if_pos (Finset.mem_range.mpr (by omega))]

/-- Each conditional neighbour transfer moves `amount*0.5` out of the centre
and into an in-bounds neighbour, leaving the total height unchanged. -/
theorem gridSum_applyNeighbor (w h : ℤ) (smooth cur : ℚ) (x y nx ny : ℤ) (g : Grid)
    (hx0 : 0 ≤ x) (hxw : x < w) (hy0 : 0 ≤ y) (hyh : y < h) :
    gridSum w h (applyNeighbor w h smooth cur x y nx ny g) = gridSum w h g := by
  unfold applyNeighbor
  split_ifs with hb
  · obtain ⟨hnx0, hnxw, hny0, hnyh⟩ := hb
    simp only []
    split_ifs with hs2
    · rw [gridSum_setCell w h _ nx ny _ hnx0 hnxw hny0 hnyh]
      rw [gridSum_setCell w h g x y _ hx0 hxw hy0 hyh]
      ring
    · rfl
  · rfl

/-- Processing one cell of a thermal pass conserves the grid sum. -/
theorem gridSum_thermalCell (w h : ℤ) (smooth : ℚ) (g : Grid) (x y : ℤ)
    (hx0 : 0 ≤ x) (hxw : x < w) (hy0 : 0 ≤ y) (hyh : y < h) :
    gridSum w h (thermalCell w h smooth g x y) = gridSum w h g := by
  unfold thermalCell
  simp only []
  rw [gridSum_applyNeighbor _ _ _ _ _ _ _ _ _ hx0 hxw hy0 hyh,
    gridSum_applyNeighbor _ _ _ _ _ _ _ _ _ hx0 hxw hy0 hyh,
    gridSum_applyNeighbor _ _ _ _ _ _ _ _ _ hx0 hxw hy0 hyh,
    gridSum_applyNeighbor _ _ _ _ _ _ _ _ _ hx0 hxw hy0 hyh]

/-- Folding one row's worth of cells conserves the grid sum. -/
theorem gridSum_foldl_cols (w h : ℤ) (smooth : ℚ) (y : ℤ) (hy0 : 0 ≤ y) (hyh : y < h) :
    ∀ (xs : List ℕ) (g : Grid), (∀ q ∈ xs, (q : ℤ) < w) →
      gridSum w h (xs.foldl (fun gx (q : ℕ) => thermalCell w h smooth gx (q : ℤ) y) g) =
        gridSum w h g := by
  intro xs
  induction xs with
  | nil => intro g _; rfl
  | cons q l ih =>
      intro g hall
      rw [List.foldl_cons, ih _ fun q' hq' => hall q' (List.mem_cons_of_mem _ hq')]
      exact gridSum_thermalCell w h smooth g q y (Int.natCast_nonneg q)
        (hall q (List.mem_cons_self q l)) hy0 hyh

/-- Folding the raster of rows conserves the grid sum. -/
theorem gridSum_foldl_rows (w h : ℤ) (smooth : ℚ) :
    ∀ (ys : List ℕ) (g : Grid), (∀ r ∈ ys, (r : ℤ) < h) →
      gridSum w h
        (ys.foldl
          (fun gy (r : ℕ) =>
            (List.range (w - 1).toNat).foldl
              (fun gx (q : ℕ) => thermalCell w h smooth gx (q : ℤ) (r : ℤ)) gy)
          g) = gridSum w h g := by
  intro ys
  induction ys with
  | nil => intro g _; rfl
  | cons r l ih =>
      intro g hall
      rw [List.foldl_cons, ih _ fun r' hr' => hall r' (List.mem_cons_of_mem _ hr')]
      exact gridSum_foldl_cols w h smooth r (Int.natCast_nonneg r)
        (hall r (List.mem_cons_self r l)) (List.range (w - 1).toNat) g
        (fun q hq => by
          have := List.mem_range.mp hq
          omega)

/-- C5: a single thermal-erosion pass conserves the summed grid height
exactly — each transfer subtracts `amount*0.5` from the centre cell and adds
`amount*0.5` to an in-bounds neighbour, so the before/after sums agree (the
claimed edge-cell leakage bound holds with difference zero). -/
theorem thermalPass_mass_conserved (w h : ℤ) (smooth : ℚ) (g : Grid) :
    gridSum w h (thermalPass w h smooth g) = gridSum w h g := by
  unfold thermalPass
  exact gridSum_foldl_rows w h smooth (List.range (h - 1).toNat) g
    (fun r hr => by
      have := List.mem_range.mp hr
      omega)

/-! ## Claim C4: every droplet terminates within a bounded step count -/

/-- Every iteration of the droplet loop multiplies the volume by exactly
0.99, in both the deposit and the erode branch. -/
theorem hydraulicStep_volume (sqrtFn : ℚ → ℚ) (w h : ℤ)
    (erosionStrength erosionDeposition : ℚ) (g : Grid) (d : Droplet) :
    ((hydraulicStep sqrtFn w h erosionStrength erosionDeposition g d).2).volume =
      d.volume * 0.99 := by
  unfold hydraulicStep
  simp only []
  split_ifs <;> rfl

/-- Loop invariant: after `n` iterations of fuel the loop has either already
stopped (volume at most 0.01, or containing cell out of bounds) or the
volume has decayed geometrically by `0.99^n`. -/
theorem dropletRun_stopped_or_decay (sqrtFn : ℚ → ℚ) (w h : ℤ)
    (erosionStrength erosionDeposition : ℚ) :
    ∀ (n : ℕ) (g : Grid) (d : Droplet),
      dropletStopped w h
          (dropletRun sqrtFn w h erosionStrength erosionDeposition n g d).2 = true ∨
      (dropletRun sqrtFn w h erosionStrength erosionDeposition n g d).2.volume ≤
        d.volume * 0.99 ^ n := by
  intro n
  induction n with
  | zero =>
      intro g d
      right
      simp [dropletRun]
  | succ k ih =>
      intro g d
      by_cases hv : d.volume > 0.01
      · by_cases hout : dropletOut w h d
        · left
          simp only [dropletRun, if_pos hv, if_pos hout]
          simp [dropletStopped, hout]
        · have hstep :
              dropletRun sqrtFn w h erosionStrength erosionDeposition (k + 1) g d =
              dropletRun sqrtFn w h erosionStrength erosionDeposition k
                (hydraulicStep sqrtFn w h erosionStrength erosionDeposition g d).1
                (hydraulicStep sqrtFn w h erosionStrength erosionDeposition g d).2 := by
            simp only [dropletRun, if_pos hv, if_neg hout]
          rw [hstep]
          rcases ih (hydraulicStep sqrtFn w h erosionStrength erosionDeposition g d).1
              (hydraulicStep sqrtFn w h erosionStrength erosionDeposition g d).2 with hs | hle
          · left
            exact hs
          · right
            rw [hydraulicStep_volume] at hle
            calc (dropletRun sqrtFn w h erosionStrength erosionDeposition k
                    (hydraulicStep sqrtFn w h erosionStrength erosionDeposition g d).1
                    (hydraulicStep sqrtFn w h erosionStrength erosionDeposition g d).2).2.volume
                ≤ d.volume * 0.99 * 0.99 ^ k := hle
              _ = d.volume * 0.99 ^ (k + 1) := by
                  rw [pow_succ]
                  ring
      · left
        simp only [dropletRun, if_neg hv]
        simp [dropletStopped, not_lt.mp hv]

/-- C4: from any spawn state (volume 1, and in general any volume at most 1)
the droplet loop stops within 10000 iterations: the loop runs only while
volume exceeds 0.01, the volume shrinks by the factor 0.99 every iteration,
and the droplet is discarded as soon as its containing cell leaves
`[0, w-2] × [0, h-2]` — after 10000 steps the volume bound forces the guard
to fail. -/
theorem droplet_run_bounded (sqrtFn : ℚ → ℚ) (w h : ℤ)
    (erosionStrength erosionDeposition : ℚ) (g : Grid) (d : Droplet)
    (hv : d.volume ≤ 1) :
    dropletStopped w h
      (dropletRun sqrtFn w h erosionStrength erosionDeposition 10000 g d).2 = true := by
  rcases dropletRun_stopped_or_decay sqrtFn w h erosionStrength erosionDeposition
      10000 g d with hs | hle
  · exact hs
  · have hpow459 : ((0.99 : ℚ)) ^ (459 : ℕ) ≤ 0.01 := by norm_num
    have hone : ((0.99 : ℚ)) ^ (9541 : ℕ) ≤ 1 := pow_le_one₀ (by norm_num) (by norm_num)
    have hpow : ((0.99 : ℚ)) ^ (10000 : ℕ) ≤ 0.01 := by
      calc ((0.99 : ℚ)) ^ (10000 : ℕ) = 0.99 ^ (459 : ℕ) * 0.99 ^ (9541 : ℕ) := by
            rw [← pow_add]
        _ ≤ 0.01 * 1 := mul_le_mul hpow459 hone (by positivity) (by norm_num)
        _ = 0.01 := mul_one _
    have hfin : (dropletRun sqrtFn w h erosionStrength erosionDeposition
        10000 g d).2.volume ≤ 0.01 := by
      calc (dropletRun sqrtFn w h erosionStrength erosionDeposition 10000 g d).2.volume
          ≤ d.volume * 0.99 ^ (10000 : ℕ) := hle
        _ ≤ 1 * 0.99 ^ (10000 : ℕ) :=
            mul_le_mul_of_nonneg_right hv (by positivity)
        _ = 0.99 ^ (10000 : ℕ) := one_mul _
        _ ≤ 0.01 := hpow
    simp [dropletStopped, hfin]

/-- Witness for C4: a freshly spawned droplet (volume 1) on a 4×4 zero grid
is stopped after at most 10000 loop iterations. -/
theorem droplet_run_bounded_witness :
    dropletStopped 4 4
      (dropletRun (fun q => q) 4 4 0.3 0.3 10000 (fun _ _ => 0)
        (spawnDroplet 4 4 (0.5, 0.5))).2 = true :=
  droplet_run_bounded (fun q => q) 4 4 0.3 0.3 (fun _ _ => 0)
    (spawnDroplet 4 4 (0.5, 0.5)) (le_refl 1)
